import Mathlib

/-!
Verification of the HOwDI hydrogen-infrastructure optimizer against its
specification. The definitions below are shallow embeddings of the relevant
source functions: the objective assembly and variable and parameter
construction of HOwDI/model/create_model.py, the constraint rules of
HOwDI/model/constraints, the network construction of
hydrogen_model/create_graph.py, the file-reading behaviour of
HOwDI/model/HydrogenData.py, and the solution decomposition of
HOwDI/postprocessing/generate_outputs.py. Numeric data is modelled with
rationals; pandas tables with lists of rows; networkx graphs with lists of
nodes, edges or attribute alists.
-/

/-! ## String helpers: python substring containment and python startswith -/

/-- Boolean test that the first character list begins the second, mirroring the
python str.startswith test used on dataframe indexes. -/
def startsWithChars : List Char → List Char → Bool
  | [], _ => true
  | _ :: _, [] => false
  | a :: as, b :: bs => a == b && startsWithChars as bs

/-- Boolean substring containment on character lists, mirroring the python
`needle in haystack` test and pandas str.contains. -/
def hasSubstrChars (needle : List Char) : List Char → Bool
  | [] => needle.isEmpty
  | c :: rest => startsWithChars needle (c :: rest) || hasSubstrChars needle rest

/-- Substring containment on strings. -/
def strContains (needle haystack : String) : Bool :=
  hasSubstrChars needle.data haystack.data

/-- Test that the pattern begins the string. -/
def strStarts (pat s : String) : Bool :=
  startsWithChars pat.data s.data

/-! ## C1: the objective assembled by obj_rule in HOwDI/model/create_model.py -/

/-- Global settings read from the HydrogenData object H, as used by obj_rule. -/
structure HSettings where
  carbon_price : ℚ
  carbon_capture_credit : ℚ
  baseSMR_CO2_per_H2_tons : ℚ
  ccs1_percent_co2_captured : ℚ
  ccs2_percent_co2_captured : ℚ
  ccs1_h2_tax_credit : ℚ
  ccs2_h2_tax_credit : ℚ
  ccs1_variable_usdPerTon : ℚ
  ccs2_variable_usdPerTon : ℚ
  A : ℚ
  time_slices : ℚ
  fixedcost_percent : ℚ
deriving DecidableEq

/-- A consumer node of m.consumer_set with its variable value cons_h and the
parameters cons_price and avoided_emissions attached to it. -/
structure Consumer where
  cons_h : ℚ
  cons_price : ℚ
  avoided_emissions : ℚ
deriving DecidableEq

/-- A node of m.new_producers with its variables and parameters. The flag
isThermal records membership in m.new_thermal_producers. -/
structure NewProducer where
  prod_h : ℚ
  prod_capacity : ℚ
  prod_cost_variable : ℚ
  prod_e_price : ℚ
  prod_ng_price : ℚ
  prod_cost_capital : ℚ
  co2_emissions_rate : ℚ
  isThermal : Bool
  ccs_capture_rate : ℚ
  h2_tax_credit : ℚ
deriving DecidableEq

/-- A node of m.existing_producers with its variables and parameters. -/
structure ExistingProducer where
  prod_h : ℚ
  prod_capacity : ℚ
  prod_cost_variable : ℚ
  prod_e_price : ℚ
  prod_ng_price : ℚ
  prod_cost_capital : ℚ
  co2_emissions_rate : ℚ
  ccs1_co2_captured : ℚ
  ccs2_co2_captured : ℚ
  ccs1_capacity_h2 : ℚ
  ccs2_capacity_h2 : ℚ
deriving DecidableEq

/-- An arc of m.distribution_arcs with its variables and parameters. -/
structure DistArc where
  dist_h : ℚ
  dist_capacity : ℚ
  dist_cost_variable : ℚ
  dist_cost_capital : ℚ
deriving DecidableEq

/-- A node of m.converter_set with its variable and parameters. -/
structure ConverterNode where
  conv_capacity : ℚ
  conv_utilization : ℚ
  conv_cost_variable : ℚ
  conv_e_price : ℚ
  conv_cost_capital : ℚ
deriving DecidableEq

/-- The sets of the compiled model that the objective ranges over.
m.producer_set is the disjoint union of newProducers and existingProducers. -/
structure H2Model where
  consumers : List Consumer
  newProducers : List NewProducer
  existingProducers : List ExistingProducer
  distributionArcs : List DistArc
  converters : List ConverterNode
deriving DecidableEq

/-- Summand U_hydrogen of obj_rule. -/
def U_hydrogen (m : H2Model) : ℚ :=
  (m.consumers.map (fun c => c.cons_h * c.cons_price)).sum

/-- Summand U_carbon_capture_credit_new of obj_rule, over new thermal
producers. -/
def U_carbon_capture_credit_new (m : H2Model) (H : HSettings) : ℚ :=
  ((m.newProducers.filter (fun p => p.isThermal)).map
    (fun p => p.prod_h * H.baseSMR_CO2_per_H2_tons * p.ccs_capture_rate)).sum
    * H.carbon_capture_credit

/-- Summand U_carbon_capture_credit_retrofit of obj_rule. -/
def U_carbon_capture_credit_retrofit (m : H2Model) (H : HSettings) : ℚ :=
  ((m.existingProducers.map
    (fun p => p.ccs1_co2_captured + p.ccs2_co2_captured)).sum)
    * H.carbon_capture_credit

/-- Summand U_h2_tax_credit of obj_rule, over new producers. -/
def U_h2_tax_credit (m : H2Model) : ℚ :=
  (m.newProducers.map (fun p => p.prod_h * p.h2_tax_credit)).sum

/-- Summand U_h2_tax_credit_retrofit_ccs of obj_rule. -/
def U_h2_tax_credit_retrofit_ccs (m : H2Model) (H : HSettings) : ℚ :=
  (m.existingProducers.map
    (fun p => p.ccs1_capacity_h2 * H.ccs1_h2_tax_credit
      + p.ccs2_capacity_h2 * H.ccs2_h2_tax_credit)).sum

/-- Summand U_carbon of obj_rule: the avoided-carbon-tax utility. The source
computes this expression but leaves it commented out of totalSurplus. -/
def U_carbon (m : H2Model) (H : HSettings) : ℚ :=
  ((m.consumers.map (fun c => c.cons_h * c.avoided_emissions)).sum)
    * H.carbon_price

/-- Summand P_variable of obj_rule, over m.producer_set. -/
def P_variable (m : H2Model) : ℚ :=
  (m.newProducers.map (fun p => p.prod_h * p.prod_cost_variable)).sum
    + (m.existingProducers.map (fun p => p.prod_h * p.prod_cost_variable)).sum

/-- Summand P_electricity of obj_rule, over m.producer_set. -/
def P_electricity (m : H2Model) : ℚ :=
  (m.newProducers.map (fun p => p.prod_h * p.prod_e_price)).sum
    + (m.existingProducers.map (fun p => p.prod_h * p.prod_e_price)).sum

/-- Summand P_naturalGas of obj_rule, over m.producer_set. -/
def P_naturalGas (m : H2Model) : ℚ :=
  (m.newProducers.map (fun p => p.prod_h * p.prod_ng_price)).sum
    + (m.existingProducers.map (fun p => p.prod_h * p.prod_ng_price)).sum

/-- Summand P_capital of obj_rule, over m.producer_set. -/
def P_capital (m : H2Model) (H : HSettings) : ℚ :=
  ((m.newProducers.map (fun p => p.prod_capacity * p.prod_cost_capital)).sum
    + (m.existingProducers.map (fun p => p.prod_capacity * p.prod_cost_capital)).sum)
    / H.A / H.time_slices * (1 + H.fixedcost_percent)

/-- Summand P_carbon of obj_rule: the carbon tax on new producers and on the
hydrogen processed by retrofit CCS. -/
def P_carbon (m : H2Model) (H : HSettings) : ℚ :=
  ((m.newProducers.map (fun p => p.prod_h * p.co2_emissions_rate)).sum
    + ((m.existingProducers.map
        (fun p => p.ccs1_capacity_h2 * p.co2_emissions_rate)).sum)
      * (1 - H.ccs1_percent_co2_captured)
    + ((m.existingProducers.map
        (fun p => p.ccs2_capacity_h2 * p.co2_emissions_rate)).sum)
      * (1 - H.ccs2_percent_co2_captured)) * H.carbon_price

/-- Summand CCS_variable of obj_rule. -/
def CCS_variable (m : H2Model) (H : HSettings) : ℚ :=
  (m.existingProducers.map
    (fun p => p.ccs1_co2_captured * H.ccs1_variable_usdPerTon
      + p.ccs2_co2_captured * H.ccs2_variable_usdPerTon)).sum

/-- Summand D_variable of obj_rule. -/
def D_variable (m : H2Model) : ℚ :=
  (m.distributionArcs.map (fun d => d.dist_h * d.dist_cost_variable)).sum

/-- Summand D_capital of obj_rule; the division happens inside the sum as in
the source. -/
def D_capital (m : H2Model) (H : HSettings) : ℚ :=
  ((m.distributionArcs.map
    (fun d => d.dist_capacity * d.dist_cost_capital / H.A / H.time_slices)).sum)
    * (1 + H.fixedcost_percent)

/-- Summand CV_variable of obj_rule. -/
def CV_variable (m : H2Model) : ℚ :=
  (m.converters.map
    (fun cv => cv.conv_capacity * cv.conv_utilization * cv.conv_cost_variable)).sum

/-- Summand CV_electricity of obj_rule. -/
def CV_electricity (m : H2Model) : ℚ :=
  (m.converters.map
    (fun cv => cv.conv_capacity * cv.conv_utilization * cv.conv_e_price)).sum

/-- Summand CV_capital of obj_rule. -/
def CV_capital (m : H2Model) (H : HSettings) : ℚ :=
  ((m.converters.map
    (fun cv => cv.conv_capacity * cv.conv_cost_capital / H.A / H.time_slices)).sum)
    * (1 + H.fixedcost_percent)

/-- The totalSurplus expression returned by obj_rule in the source. The
avoided-carbon-tax summand U_carbon is computed by obj_rule but commented out
of this sum in the source, so it is omitted here. -/
def totalSurplus (m : H2Model) (H : HSettings) : ℚ :=
  U_hydrogen m
    + U_carbon_capture_credit_new m H
    + U_carbon_capture_credit_retrofit m H
    + U_h2_tax_credit m
    + U_h2_tax_credit_retrofit_ccs m H
    - P_variable m
    - P_electricity m
    - P_naturalGas m
    - P_capital m H
    - P_carbon m H
    - CCS_variable m H
    - D_variable m
    - D_capital m H
    - CV_variable m
    - CV_electricity m
    - CV_capital m H

/-- Modelled from the spec: the objective as the specification and the
docstring of obj_rule state it, with the avoided-carbon-tax utility U_carbon
included as a positive summand. This definition follows the spec words, to be
compared with totalSurplus, which follows the source. -/
def totalSurplusDocumented (m : H2Model) (H : HSettings) : ℚ :=
  totalSurplus m H + U_carbon m H

/-- The failing input for claim C1: one consumer with one ton consumed, zero
breakeven price and avoided emissions of one ton CO2 per ton H2; no producers,
arcs or converters. -/
def M1 : H2Model :=
  { consumers := [{ cons_h := 1, cons_price := 0, avoided_emissions := 1 }]
    newProducers := []
    existingProducers := []
    distributionArcs := []
    converters := [] }

/-- Settings for the failing input of claim C1: a carbon price of 100 dollars
per ton CO2 and neutral values elsewhere. -/
def H1 : HSettings :=
  { carbon_price := 100
    carbon_capture_credit := 0
    baseSMR_CO2_per_H2_tons := 0
    ccs1_percent_co2_captured := 0
    ccs2_percent_co2_captured := 0
    ccs1_h2_tax_credit := 0
    ccs2_h2_tax_credit := 0
    ccs1_variable_usdPerTon := 0
    ccs2_variable_usdPerTon := 0
    A := 1
    time_slices := 1
    fixedcost_percent := 0 }

/-! ## C2: rule_truckCapacityConsistency in constraints/mass_conservation.py -/

/-- Sum of dist_capacity over the in-edges of the truck node whose start node
name contains the substring converter, as in rule_truckCapacityConsistency. -/
def inTrucks (edges : List (String × String)) (cap : String → String → ℚ)
    (t : String) : ℚ :=
  ((edges.filter (fun e => e.2 == t && strContains "converter" e.1)).map
    (fun e => cap e.1 e.2)).sum

/-- Sum of dist_capacity over the out-edges of the truck node whose end node
name contains converter, dist or demand, as in rule_truckCapacityConsistency. -/
def outTrucks (edges : List (String × String)) (cap : String → String → ℚ)
    (t : String) : ℚ :=
  ((edges.filter (fun e => e.1 == t
      && (strContains "converter" e.2 || strContains "dist" e.2
        || strContains "demand" e.2))).map
    (fun e => cap e.1 e.2)).sum

/-- The constraint rule_truckCapacityConsistency builds for one truck node. -/
def constr_truckConsistency (edges : List (String × String))
    (cap : String → String → ℚ) (t : String) : Prop :=
  inTrucks edges cap t - outTrucks edges cap t = 0

/-- The constraint family over m.truck_set. -/
def truckConstraints (edges : List (String × String))
    (cap : String → String → ℚ) (truckSet : List String) : Prop :=
  ∀ t ∈ truckSet, constr_truckConsistency edges cap t

/-! ## C3: CCS retrofit rules in constraints/existing_infrastructure.py -/

/-- The Binary variable domain of create_variables. -/
def binaryDomain (b : ℚ) : Prop := b = 0 ∨ b = 1

/-- Constraint rule_onlyOneCCS for one existing producer. -/
def constr_onlyOneCCS (ccs1_built ccs2_built : ℚ) : Prop :=
  ccs1_built + ccs2_built ≤ 1

/-- Constraint rule_mustBuildAllCCS1 for one existing producer. -/
def constr_mustBuildAllCCS1 (ccs1_capacity_h2 ccs1_built prod_h : ℚ) : Prop :=
  ccs1_capacity_h2 = ccs1_built * prod_h

/-- Constraint rule_mustBuildAllCCS2 for one existing producer. -/
def constr_mustBuildAllCCS2 (ccs2_capacity_h2 ccs2_built prod_h : ℚ) : Prop :=
  ccs2_capacity_h2 = ccs2_built * prod_h

/-! ## C4: price discovery in postprocessing/generate_outputs.py -/

/-- A row of the consumption table: the index string and the solved values of
cons_price and cons_h. -/
structure ProbeRow where
  idx : String
  cons_price : ℚ
  cons_h : ℚ
deriving DecidableEq

/-- The numpy isclose test with its default tolerances rtol of 1e-5 and atol of
1e-8. -/
def iscloseQ (a b : ℚ) : Bool :=
  decide (|a - b| ≤ 1 / 100000000 + |b| / 100000)

/-- price_hubs_df_all of create_outputs_dfs: the consumption rows whose index
contains the demand type and whose consumption is isclose to price_demand. -/
def probesFullDemand (rows : List ProbeRow) (demandType : String)
    (priceDemand : ℚ) : List ProbeRow :=
  rows.filter (fun r => strContains demandType r.idx && iscloseQ r.cons_h priceDemand)

/-- local_price_hub_df of create_outputs_dfs: the previous rows whose index
contains the hub name. -/
def localPriceHubRows (rows : List ProbeRow) (demandType hub : String)
    (priceDemand : ℚ) : List ProbeRow :=
  (probesFullDemand rows demandType priceDemand).filter
    (fun r => strContains hub r.idx)

/-- Minimum of the cons_price column of a dataframe, as pandas min computes it
over a nonempty frame; zero on the empty frame, where the source never reads
it. -/
def minConsPrice : List ProbeRow → ℚ
  | [] => 0
  | r :: rs => rs.foldl (fun acc x => min acc x.cons_price) r.cons_price

/-- breakeven_price_at_hub of create_outputs_dfs: when the local frame is
nonempty, its rows whose cons_price attains the minimum; the appended price
rows for one hub and demand type. -/
def breakevenPriceRows (rows : List ProbeRow) (demandType hub : String)
    (priceDemand : ℚ) : List ProbeRow :=
  let loc := localPriceHubRows rows demandType hub priceDemand
  if loc.isEmpty then []
  else loc.filter (fun r => r.cons_price == minConsPrice loc)

/-! ## C5 and C10: graph construction in hydrogen_model/create_graph.py -/

/-- An arc of the network with the attribute bag initialize_graph gives it. The
field cls holds the class attribute. -/
structure GraphArc where
  startNode : String
  endNode : String
  kmLength : ℚ
  capital_usdPerUnit : ℚ
  fixed_usdPerUnitPerDay : ℚ
  variable_usdPerTon : ℚ
  flowLimit_tonsPerDay : ℚ
  cls : String
deriving DecidableEq

/-- The unlimited-flow sentinel 99999999.9 used by the intra-hub arcs. -/
def bigFlow : ℚ := 999999999 / 10

/-- Step 2.1 of initialize_graph: the hub-to-pipeline-distribution arcs of one
hub, in both directions. -/
def hubPipelineArcs (hub : String) : List GraphArc :=
  [ { startNode := hub ++ "_hub_lowPurity"
      endNode := hub ++ "_dist_pipelineLowPurity"
      kmLength := 0, capital_usdPerUnit := 0, fixed_usdPerUnitPerDay := 0
      variable_usdPerTon := 0, flowLimit_tonsPerDay := bigFlow
      cls := "flow_within_hub" },
    { startNode := hub ++ "_hub_highPurity"
      endNode := hub ++ "_dist_pipelineHighPurity"
      kmLength := 0, capital_usdPerUnit := 0, fixed_usdPerUnitPerDay := 0
      variable_usdPerTon := 0, flowLimit_tonsPerDay := bigFlow
      cls := "flow_within_hub" },
    { startNode := hub ++ "_dist_pipelineLowPurity"
      endNode := hub ++ "_hub_lowPurity"
      kmLength := 0, capital_usdPerUnit := 0, fixed_usdPerUnitPerDay := 0
      variable_usdPerTon := 0, flowLimit_tonsPerDay := bigFlow
      cls := "reverse_flow_within_hub" },
    { startNode := hub ++ "_dist_pipelineHighPurity"
      endNode := hub ++ "_hub_highPurity"
      kmLength := 0, capital_usdPerUnit := 0, fixed_usdPerUnitPerDay := 0
      variable_usdPerTon := 0, flowLimit_tonsPerDay := bigFlow
      cls := "reverse_flow_within_hub" } ]

/-- Step 2.3 of initialize_graph: the distribution-node-to-demand-node arcs of
one hub. The liquefied-truck arcs carry the truck_Liquefied_char attribute bag
with its flow limit of 8.0 tons per day. -/
def distToDemandArcs (hub : String) : List GraphArc :=
  [ { startNode := hub ++ "_dist_pipelineHighPurity"
      endNode := hub ++ "_demand_fuelStation"
      kmLength := 0, capital_usdPerUnit := 0, fixed_usdPerUnitPerDay := 0
      variable_usdPerTon := 0, flowLimit_tonsPerDay := bigFlow
      cls := "flow_to_demand_node" },
    { startNode := hub ++ "_dist_truckCompressed"
      endNode := hub ++ "_demand_fuelStation"
      kmLength := 0, capital_usdPerUnit := 0, fixed_usdPerUnitPerDay := 0
      variable_usdPerTon := 0, flowLimit_tonsPerDay := bigFlow
      cls := "flow_to_demand_node" },
    { startNode := hub ++ "_dist_truckLiquefied"
      endNode := hub ++ "_demand_fuelStation"
      kmLength := 0, capital_usdPerUnit := 0, fixed_usdPerUnitPerDay := 0
      variable_usdPerTon := 0, flowLimit_tonsPerDay := 8
      cls := "flow_to_demand_node" },
    { startNode := hub ++ "_dist_pipelineHighPurity"
      endNode := hub ++ "_demand_highPurity"
      kmLength := 0, capital_usdPerUnit := 0, fixed_usdPerUnitPerDay := 0
      variable_usdPerTon := 0, flowLimit_tonsPerDay := bigFlow
      cls := "flow_to_demand_node" },
    { startNode := hub ++ "_dist_truckCompressed"
      endNode := hub ++ "_demand_highPurity"
      kmLength := 0, capital_usdPerUnit := 0, fixed_usdPerUnitPerDay := 0
      variable_usdPerTon := 0, flowLimit_tonsPerDay := bigFlow
      cls := "flow_to_demand_node" },
    { startNode := hub ++ "_dist_truckLiquefied"
      endNode := hub ++ "_demand_highPurity"
      kmLength := 0, capital_usdPerUnit := 0, fixed_usdPerUnitPerDay := 0
      variable_usdPerTon := 0, flowLimit_tonsPerDay := 8
      cls := "flow_to_demand_node" },
    { startNode := hub ++ "_dist_pipelineLowPurity"
      endNode := hub ++ "_demand_lowPurity"
      kmLength := 0, capital_usdPerUnit := 0, fixed_usdPerUnitPerDay := 0
      variable_usdPerTon := 0, flowLimit_tonsPerDay := bigFlow
      cls := "flow_to_demand_node" },
    { startNode := hub ++ "_dist_pipelineHighPurity"
      endNode := hub ++ "_demand_lowPurity"
      kmLength := 0, capital_usdPerUnit := 0, fixed_usdPerUnitPerDay := 0
      variable_usdPerTon := 0, flowLimit_tonsPerDay := bigFlow
      cls := "flow_to_demand_node" },
    { startNode := hub ++ "_dist_truckCompressed"
      endNode := hub ++ "_demand_lowPurity"
      kmLength := 0, capital_usdPerUnit := 0, fixed_usdPerUnitPerDay := 0
      variable_usdPerTon := 0, flowLimit_tonsPerDay := bigFlow
      cls := "flow_to_demand_node" },
    { startNode := hub ++ "_dist_truckLiquefied"
      endNode := hub ++ "_demand_lowPurity"
      kmLength := 0, capital_usdPerUnit := 0, fixed_usdPerUnitPerDay := 0
      variable_usdPerTon := 0, flowLimit_tonsPerDay := 8
      cls := "flow_to_demand_node" } ]

/-- The intra-hub scaffold arcs of claim C5: the hub-to-pipeline-distribution
arcs in both directions together with the distribution-to-demand arcs. -/
def intraHubScaffoldArcs (hub : String) : List GraphArc :=
  hubPipelineArcs hub ++ distToDemandArcs hub

/-- An inter-hub pipeline arc with the attributes pipeline_char gives it. -/
structure PipelineArc where
  startNode : String
  endNode : String
  kmLength : ℚ
  capital_usdPerUnit : ℚ
  fixed_usdPerUnitPerDay : ℚ
  variable_usdPerTon : ℚ
  flowLimit_tonsPerDay : ℚ
  cls : String
  existing : ℚ
deriving DecidableEq

/-- The pipeline technology row of the distribution table used by step 3 of
initialize_graph. -/
structure PipelineSpec where
  capital_usdPerUnit : ℚ
  fixed_usdPerUnitPerDay : ℚ
  variable_usdPerKilometerTon : ℚ
  flowLimit_tonsPerDay : ℚ
deriving DecidableEq

/-- The two directed pipeline arcs of one purity grade for one distance
record, built from pipeline_char in initialize_graph. -/
def pipelinePairForPurity (spec : PipelineSpec) (purity : String)
    (pipelineLength capitalPM : ℚ) (startNode endNode : String)
    (ex : ℚ) : List PipelineArc :=
  [(startNode, endNode), (endNode, startNode)].map (fun arc =>
    { startNode := arc.1 ++ "_dist_pipeline" ++ purity
      endNode := arc.2 ++ "_dist_pipeline" ++ purity
      kmLength := pipelineLength
      capital_usdPerUnit := spec.capital_usdPerUnit * pipelineLength * capitalPM
      fixed_usdPerUnitPerDay := spec.fixed_usdPerUnitPerDay * pipelineLength
      variable_usdPerTon := spec.variable_usdPerKilometerTon * pipelineLength
      flowLimit_tonsPerDay := spec.flowLimit_tonsPerDay
      cls := "arc_pipeline" ++ purity
      existing := ex })

/-- The four pipeline arcs one distance record generates in step 3 of
initialize_graph. The fold carries the exist_pipeline field of the record,
which the source overwrites with zero when it reaches the HighPurity grade;
LowPurity is processed first. -/
def interHubPipelineArcs (spec : PipelineSpec) (pipelineLength capitalPM : ℚ)
    (startNode endNode : String) (exist_pipeline : ℚ) : List PipelineArc :=
  ((["LowPurity", "HighPurity"].foldl (fun acc purity =>
      let ex := if purity == "HighPurity" then 0 else acc.2
      (acc.1 ++ pipelinePairForPurity spec purity pipelineLength capitalPM
        startNode endNode ex, ex))
    (([] : List PipelineArc), exist_pipeline))).1

/-! ## C6: variable domains in create_variables of create_model.py -/

/-- The pyomo variable domains used by create_variables. -/
inductive VarDomain where
  | nonNegativeReals : VarDomain
  | nonNegativeIntegers : VarDomain
  | binary : VarDomain
deriving DecidableEq, BEq

/-- The variables declared by create_variables with their domains, in source
order. -/
def create_variables_domains : List (String × VarDomain) :=
  [ ("dist_capacity", VarDomain.nonNegativeIntegers),
    ("dist_h", VarDomain.nonNegativeReals),
    ("prod_exists", VarDomain.binary),
    ("prod_capacity", VarDomain.nonNegativeReals),
    ("prod_h", VarDomain.nonNegativeReals),
    ("conv_capacity", VarDomain.nonNegativeReals),
    ("cons_h", VarDomain.nonNegativeReals),
    ("cons_checs", VarDomain.nonNegativeReals),
    ("ccs1_built", VarDomain.binary),
    ("ccs2_built", VarDomain.binary),
    ("ccs1_co2_captured", VarDomain.nonNegativeReals),
    ("ccs2_co2_captured", VarDomain.nonNegativeReals),
    ("ccs1_capacity_h2", VarDomain.nonNegativeReals),
    ("ccs2_capacity_h2", VarDomain.nonNegativeReals),
    ("prod_checs", VarDomain.nonNegativeReals),
    ("ccs1_checs", VarDomain.nonNegativeReals),
    ("ccs2_checs", VarDomain.nonNegativeReals),
    ("fuelStation_cost_capital_subsidy", VarDomain.nonNegativeReals) ]

/-! ## C7: parameter construction in create_params of create_model.py -/

/-- Attribute bag of a node or arc of the network, as an association list. -/
abbrev AttrBag : Type := List (String × ℚ)

/-- The python dict.get call with a default of zero, as used by almost every
parameter initializer of create_params. -/
def getAttrD (attrs : AttrBag) (key : String) : ℚ :=
  (attrs.lookup key).getD 0

/-- The python dict.get call with no default, returning None when the key is
absent, as used only by the grid_intensity initializer. -/
def getAttr (attrs : AttrBag) (key : String) : Option ℚ :=
  attrs.lookup key

def dist_cost_capital (attrs : AttrBag) : ℚ := getAttrD attrs "capital_usdPerUnit"

def dist_cost_fixed (attrs : AttrBag) : ℚ := getAttrD attrs "fixed_usdPerUnitPerDay"

def dist_cost_variable (attrs : AttrBag) : ℚ := getAttrD attrs "variable_usdPerTon"

def dist_flowLimit (attrs : AttrBag) : ℚ := getAttrD attrs "flowLimit_tonsPerDay"

def prod_cost_capital (attrs : AttrBag) : ℚ := getAttrD attrs "capital_usdPerTonPerDay"

def prod_cost_fixed (attrs : AttrBag) : ℚ := getAttrD attrs "fixed_usdPerTon"

def prod_e_price (attrs : AttrBag) : ℚ := getAttrD attrs "e_price"

def prod_ng_price (attrs : AttrBag) : ℚ := getAttrD attrs "ng_price"

def prod_cost_variable (attrs : AttrBag) : ℚ := getAttrD attrs "variable_usdPerTon"

def co2_emissions_rate (attrs : AttrBag) : ℚ := getAttrD attrs "co2_emissions_per_h2_tons"

/-- The grid_intensity parameter of new electric producers: the only family
whose initializer calls dict.get without a default. -/
def grid_intensity (attrs : AttrBag) : Option ℚ :=
  getAttr attrs "grid_intensity_tonsCO2_per_h2"

def prod_utilization (attrs : AttrBag) : ℚ := getAttrD attrs "utilization"

def chec_per_ton (attrs : AttrBag) : ℚ := getAttrD attrs "chec_per_ton"

def ccs_capture_rate (attrs : AttrBag) : ℚ := getAttrD attrs "ccs_capture_rate"

def h2_tax_credit (attrs : AttrBag) : ℚ := getAttrD attrs "h2_tax_credit"

def conv_cost_capital (attrs : AttrBag) : ℚ := getAttrD attrs "capital_usdPerTonPerDay"

def conv_cost_fixed (attrs : AttrBag) : ℚ := getAttrD attrs "fixed_usdPerTonPerDay"

def conv_e_price (attrs : AttrBag) : ℚ := getAttrD attrs "e_price"

def conv_cost_variable (attrs : AttrBag) : ℚ := getAttrD attrs "variable_usdPerTon"

def conv_utilization (attrs : AttrBag) : ℚ := getAttrD attrs "utilization"

def cons_price (attrs : AttrBag) : ℚ := getAttrD attrs "breakevenPrice"

def cons_size (attrs : AttrBag) : ℚ := getAttrD attrs "size"

def cons_carbonSensitive (attrs : AttrBag) : ℚ := getAttrD attrs "carbonSensitive"

def avoided_emissions (attrs : AttrBag) : ℚ := getAttrD attrs "avoided_emissions_tonsCO2_per_H2"

def can_ccs1 (attrs : AttrBag) : ℚ := getAttrD attrs "can_ccs1"

def can_ccs2 (attrs : AttrBag) : ℚ := getAttrD attrs "can_ccs2"

/-! ## C8: read_file and raiseFileNotFoundError in HydrogenData.py -/

/-- The read_file method of HydrogenData over a filesystem mapping file names
to tables: pandas read_csv raises FileNotFoundError on a missing file, the
except branch calls raiseFileNotFoundError, which raises only when the
raiseFileNotFoundError_bool flag is set and otherwise returns None. -/
def read_file {α : Type} (raiseFNF : Bool) (fs : String → Option α)
    (fn : String) : Except String (Option α) :=
  match fs fn with
  | some t => Except.ok (some t)
  | none =>
    if raiseFNF then Except.error ("The file " ++ fn ++ " was not found.")
    else Except.ok none

/-! ## C9: per-hub distribution decomposition in generate_outputs.py -/

/-- A row of the global distribution table: arc endpoints and reported flow. -/
structure DistRow where
  arc_start : String
  arc_end : String
  dist_h : ℚ
deriving DecidableEq

/-- The local subset of _create_hub_distribution_data: both endpoints contain
the hub name followed by an underscore. -/
def localRows (hub : String) (rows : List DistRow) : List DistRow :=
  rows.filter (fun r => strContains (hub ++ "_") r.arc_start
    && strContains (hub ++ "_") r.arc_end)

/-- The outgoing subset: the start contains the hub string and the end does
not; _out_in_add_info then keeps only rows of positive flow. -/
def outgoingRows (hub : String) (rows : List DistRow) : List DistRow :=
  (rows.filter (fun r => strContains (hub ++ "_") r.arc_start
    && !strContains (hub ++ "_") r.arc_end)).filter
    (fun r => decide (0 < r.dist_h))

/-- The incoming subset: the end contains the hub string and the start does
not; _out_in_add_info then keeps only rows of positive flow. -/
def incomingRows (hub : String) (rows : List DistRow) : List DistRow :=
  (rows.filter (fun r => strContains (hub ++ "_") r.arc_end
    && !strContains (hub ++ "_") r.arc_start)).filter
    (fun r => decide (0 < r.dist_h))

/-- Sum of the dist_h column. -/
def flowSum (rows : List DistRow) : ℚ :=
  (rows.map (fun r => r.dist_h)).sum

/-- The hub-related rows as the source selects them: one endpoint contains the
hub name followed by an underscore as a substring. -/
def hubRelatedRows (hub : String) (rows : List DistRow) : List DistRow :=
  rows.filter (fun r => strContains (hub ++ "_") r.arc_start
    || strContains (hub ++ "_") r.arc_end)

/-- Modelled from the spec: the hub-related rows as claim C9 words them, one
endpoint identifier begins with the hub name. This definition follows the
claim words, to be compared with hubRelatedRows, which follows the source. -/
def hubRelatedRowsSpec (hub : String) (rows : List DistRow) : List DistRow :=
  rows.filter (fun r => strStarts (hub ++ "_") r.arc_start
    || strStarts (hub ++ "_") r.arc_end)

/-! ## Helper lemmas -/

/-- A left fold of min is at most its initial value. -/
theorem foldlMin_le (l : List ProbeRow) : ∀ init : ℚ,
    l.foldl (fun acc y => min acc y.cons_price) init ≤ init := by
  induction l with
  | nil => intro init; simp
  | cons r rs ih =>
    intro init
    calc rs.foldl (fun acc y => min acc y.cons_price) (min init r.cons_price)
        ≤ min init r.cons_price := ih (min init r.cons_price)
      _ ≤ init := min_le_left _ _

/-- A left fold of min is at most each element folded over. -/
theorem foldlMin_le_mem (l : List ProbeRow) : ∀ (init : ℚ) (x : ProbeRow),
    x ∈ l → l.foldl (fun acc y => min acc y.cons_price) init ≤ x.cons_price := by
  induction l with
  | nil => intro init x hx; cases hx
  | cons r rs ih =>
    intro init x hx
    rcases List.mem_cons.mp hx with rfl | hx2
    · exact le_trans (foldlMin_le rs (min init x.cons_price)) (min_le_right _ _)
    · exact ih (min init r.cons_price) x hx2

/-- A left fold of min returns its initial value or one of the folded
values. -/
theorem foldlMin_attained (l : List ProbeRow) : ∀ init : ℚ,
    l.foldl (fun acc y => min acc y.cons_price) init = init ∨
      ∃ x ∈ l, l.foldl (fun acc y => min acc y.cons_price) init = x.cons_price := by
  induction l with
  | nil => intro init; exact Or.inl rfl
  | cons r rs ih =>
    intro init
    rcases ih (min init r.cons_price) with h | ⟨x, hx, he⟩
    · rcases min_cases init r.cons_price with ⟨he2, _⟩ | ⟨he2, _⟩
      · left; rw [List.foldl_cons, h, he2]
      · right
        exact ⟨r, List.mem_cons_self r rs, by rw [List.foldl_cons, h, he2]⟩
    · right
      exact ⟨x, List.mem_cons_of_mem r hx, by rw [List.foldl_cons]; exact he⟩

/-- The pandas column minimum bounds every row of the frame from below. -/
theorem minConsPrice_le (l : List ProbeRow) (r : ProbeRow) (hr : r ∈ l) :
    minConsPrice l ≤ r.cons_price := by
  cases l with
  | nil => cases hr
  | cons a as =>
    rcases List.mem_cons.mp hr with rfl | h
    · exact foldlMin_le as r.cons_price
    · exact foldlMin_le_mem as a.cons_price r h

/-- The pandas column minimum of a nonempty frame is attained by a row. -/
theorem minConsPrice_attained (l : List ProbeRow) (hl : l ≠ []) :
    ∃ r ∈ l, minConsPrice l = r.cons_price := by
  cases l with
  | nil => exact absurd rfl hl
  | cons a as =>
    rcases foldlMin_attained as a.cons_price with h | ⟨x, hx, he⟩
    · exact ⟨a, List.mem_cons_self a as, h⟩
    · exact ⟨x, List.mem_cons_of_mem a hx, he⟩

/-- The four arcs of one inter-hub distance record, unfolded: the LowPurity
pair first with the exist_pipeline flag of the record, then the HighPurity
pair with the flag overwritten to zero. -/
theorem interHubPipelineArcs_eq (spec : PipelineSpec) (plen pm : ℚ)
    (s e : String) (ex : ℚ) :
    interHubPipelineArcs spec plen pm s e ex =
      pipelinePairForPurity spec "LowPurity" plen pm s e ex ++
        pipelinePairForPurity spec "HighPurity" plen pm s e 0 := rfl

/-! ## Claim theorems -/

/-- Claim C1, code-bug evidence: the objective compiled by build_h2_model does
not contain the avoided-carbon-tax utility. At the failing input M1 with
settings H1 the avoided-carbon-tax utility U_carbon is 100, the documented
objective is 100, yet totalSurplus as the source assembles it is 0: the
summand is commented out of the returned sum. -/
theorem obj_rule_omits_avoided_carbon_utility :
    totalSurplus M1 H1 = 0 ∧ U_carbon M1 H1 = 100 ∧
      totalSurplusDocumented M1 H1 = 100 := by
  refine ⟨?_, ?_, ?_⟩ <;>
    norm_num [totalSurplus, totalSurplusDocumented, U_hydrogen, U_carbon,
      U_carbon_capture_credit_new, U_carbon_capture_credit_retrofit,
      U_h2_tax_credit, U_h2_tax_credit_retrofit_ccs, P_variable, P_electricity,
      P_naturalGas, P_capital, P_carbon, CCS_variable, D_variable, D_capital,
      CV_variable, CV_electricity, CV_capital, M1, H1]

/-- Claim C2: for every truck node the compiled constraint holds exactly when
the inbound capacity from conversion nodes equals the outbound capacity toward
converter, distribution and demand neighbours; the rule is an equality, not a
greater-or-equal. -/
theorem truckCapacityConsistency_is_equality :
    ∀ (edges : List (String × String)) (cap : String → String → ℚ)
      (truckSet : List String),
      truckConstraints edges cap truckSet ↔
        ∀ t ∈ truckSet, inTrucks edges cap t = outTrucks edges cap t := by
  intro edges cap truckSet
  simp [truckConstraints, constr_truckConsistency, sub_eq_zero]

/-- Claim C3: in any assignment satisfying the CCS retrofit constraints with
binary chosen-flags, at most one of the two flags is 1, each retrofit
throughput equals the flag times total production, a chosen technology
processes the entire output and an unchosen one processes zero. -/
theorem ccs_retrofit_at_most_one_and_all_or_nothing :
    ∀ b1 b2 prodH c1 c2 : ℚ,
      binaryDomain b1 → binaryDomain b2 →
      constr_onlyOneCCS b1 b2 →
      constr_mustBuildAllCCS1 c1 b1 prodH →
      constr_mustBuildAllCCS2 c2 b2 prodH →
      ¬(b1 = 1 ∧ b2 = 1) ∧ c1 = b1 * prodH ∧ c2 = b2 * prodH ∧
        (b1 = 1 → c1 = prodH) ∧ (b1 = 0 → c1 = 0) ∧
        (b2 = 1 → c2 = prodH) ∧ (b2 = 0 → c2 = 0) := by
  intro b1 b2 prodH c1 c2 hb1 hb2 hone h1 h2
  unfold constr_onlyOneCCS at hone
  unfold constr_mustBuildAllCCS1 at h1
  unfold constr_mustBuildAllCCS2 at h2
  refine ⟨?_, h1, h2, ?_, ?_, ?_, ?_⟩
  · rintro ⟨e1, e2⟩
    rw [e1, e2] at hone
    norm_num at hone
  · intro e; rw [h1, e, one_mul]
  · intro e; rw [h1, e, zero_mul]
  · intro e; rw [h2, e, one_mul]
  · intro e; rw [h2, e, zero_mul]

/-- Witness for claim C3 at the concrete assignment with CCS1 chosen, CCS2 not
chosen and a production of five tons per day. -/
theorem ccs_retrofit_at_most_one_and_all_or_nothing_witness :
    ¬((1 : ℚ) = 1 ∧ (0 : ℚ) = 1) ∧ (5 : ℚ) = 1 * 5 ∧ (0 : ℚ) = 0 * 5 ∧
      ((1 : ℚ) = 1 → (5 : ℚ) = 5) ∧ ((1 : ℚ) = 0 → (5 : ℚ) = 0) ∧
      ((0 : ℚ) = 1 → (0 : ℚ) = 5) ∧ ((0 : ℚ) = 0 → (0 : ℚ) = 0) :=
  ccs_retrofit_at_most_one_and_all_or_nothing 1 0 5 5 0
    (Or.inr rfl) (Or.inl rfl) (by norm_num [constr_onlyOneCCS])
    (by norm_num [constr_mustBuildAllCCS1])
    (by norm_num [constr_mustBuildAllCCS2])

/-- Claim C4: the rows the price discovery appends for one hub and demand type
are exactly the minimum-priced rows among the probes whose consumption is
isclose to the injected probe demand; the appended set is empty exactly when
no probe at that hub and demand type consumes its full demand. -/
theorem price_discovery_min_over_full_demand_probes :
    ∀ (rows : List ProbeRow) (demandType hub : String) (priceDemand : ℚ),
      (breakevenPriceRows rows demandType hub priceDemand = [] ↔
        localPriceHubRows rows demandType hub priceDemand = []) ∧
      ∀ r ∈ breakevenPriceRows rows demandType hub priceDemand,
        strContains demandType r.idx = true ∧
        strContains hub r.idx = true ∧
        iscloseQ r.cons_h priceDemand = true ∧
        r.cons_price = minConsPrice (localPriceHubRows rows demandType hub priceDemand) ∧
        ∀ q ∈ localPriceHubRows rows demandType hub priceDemand,
          r.cons_price ≤ q.cons_price := by
  intro rows dt hub pd
  constructor
  · by_cases hle : (localPriceHubRows rows dt hub pd).isEmpty
    · have hnil : localPriceHubRows rows dt hub pd = [] :=
        List.isEmpty_iff.mp hle
      simp [breakevenPriceRows, hle, hnil]
    · have hne : localPriceHubRows rows dt hub pd ≠ [] := by
        intro h; exact hle (by simp [h])
      constructor
      · intro he
        exfalso
        obtain ⟨r, hr, hmin⟩ := minConsPrice_attained _ hne
        have hrB : r ∈ breakevenPriceRows rows dt hub pd := by
          unfold breakevenPriceRows
          rw [if_neg (by simpa using hle)]
          exact List.mem_filter.mpr ⟨hr, by simp [hmin]⟩
        rw [he] at hrB
        cases hrB
      · intro h; exact absurd h hne
  · intro r hr
    have hmem : r ∈ localPriceHubRows rows dt hub pd ∧
        (r.cons_price == minConsPrice (localPriceHubRows rows dt hub pd)) = true := by
      unfold breakevenPriceRows at hr
      by_cases hle : (localPriceHubRows rows dt hub pd).isEmpty
      · rw [if_pos hle] at hr; cases hr
      · rw [if_neg hle] at hr; exact List.mem_filter.mp hr
    obtain ⟨hloc, hbeq⟩ := hmem
    have heq : r.cons_price = minConsPrice (localPriceHubRows rows dt hub pd) :=
      beq_iff_eq.mp hbeq
    have hfull : r ∈ probesFullDemand rows dt pd ∧ strContains hub r.idx = true := by
      have := List.mem_filter.mp hloc
      exact ⟨this.1, this.2⟩
    have hfilters : r ∈ rows ∧
        (strContains dt r.idx && iscloseQ r.cons_h pd) = true :=
      List.mem_filter.mp hfull.1
    have hand := Bool.and_eq_true_iff.mp hfilters.2
    refine ⟨hand.1, hfull.2, hand.2, heq, ?_⟩
    intro q hq
    rw [heq]
    exact minConsPrice_le _ q hq

/-- Claim C5, counterexample: an intra-hub scaffold arc of hub hubA, from the
liquefied-truck distribution node to the fuel-station demand node, has zero
costs but a flow limit of 8 tons per day, not the unlimited-flow sentinel. -/
theorem intra_hub_scaffold_unlimited_flow_cex :
    ∃ a ∈ intraHubScaffoldArcs "hubA",
      a.capital_usdPerUnit = 0 ∧ a.fixed_usdPerUnitPerDay = 0 ∧
      a.variable_usdPerTon = 0 ∧ a.flowLimit_tonsPerDay ≠ bigFlow ∧
      a.flowLimit_tonsPerDay = 8 := by
  refine ⟨⟨"hubA" ++ "_dist_truckLiquefied", "hubA" ++ "_demand_fuelStation",
    0, 0, 0, 0, 8, "flow_to_demand_node"⟩, ?_, rfl, rfl, rfl, ?_, rfl⟩
  · simp [intraHubScaffoldArcs, hubPipelineArcs, distToDemandArcs]
  · norm_num [bigFlow]

/-- Claim C5 as amended: every intra-hub scaffold arc has zero capital, fixed
and variable cost, and its flow limit is the unlimited sentinel except on the
three liquefied-truck-to-demand arcs, where it is 8 tons per day. -/
theorem intra_hub_scaffold_zero_cost_flowlimits :
    ∀ hub : String,
      (∀ a ∈ intraHubScaffoldArcs hub,
        a.capital_usdPerUnit = 0 ∧ a.fixed_usdPerUnitPerDay = 0 ∧
          a.variable_usdPerTon = 0) ∧
      (∀ a ∈ intraHubScaffoldArcs hub,
        a.flowLimit_tonsPerDay = bigFlow ∨
          (a.flowLimit_tonsPerDay = 8 ∧
            a.startNode = hub ++ "_dist_truckLiquefied")) := by
  intro hub
  constructor
  · intro a ha
    simp [intraHubScaffoldArcs, hubPipelineArcs, distToDemandArcs] at ha
    rcases ha with rfl|rfl|rfl|rfl|rfl|rfl|rfl|rfl|rfl|rfl|rfl|rfl|rfl|rfl
    all_goals exact ⟨rfl, rfl, rfl⟩
  · intro a ha
    simp [intraHubScaffoldArcs, hubPipelineArcs, distToDemandArcs] at ha
    rcases ha with rfl|rfl|rfl|rfl|rfl|rfl|rfl|rfl|rfl|rfl|rfl|rfl|rfl|rfl
    all_goals first
      | exact Or.inl rfl
      | exact Or.inr ⟨rfl, rfl⟩

/-- Claim C6, counterexample: the distribution-capacity variable is declared
over the non-negative integers, not the non-negative reals. -/
theorem dist_capacity_not_reals_cex :
    create_variables_domains.lookup "dist_capacity" =
      some VarDomain.nonNegativeIntegers ∧
    some VarDomain.nonNegativeIntegers ≠ some VarDomain.nonNegativeReals := by
  decide

/-- Claim C6 as amended: producer and converter capacities are continuous
non-negative reals, distribution-arc capacity is a non-negative integer, and
the binary variables are exactly the existence flag and the two
CCS-technology-chosen flags; there is no subsidy-eligibility binary. -/
theorem variable_domains_amended :
    create_variables_domains.lookup "prod_capacity" =
      some VarDomain.nonNegativeReals ∧
    create_variables_domains.lookup "conv_capacity" =
      some VarDomain.nonNegativeReals ∧
    create_variables_domains.lookup "dist_capacity" =
      some VarDomain.nonNegativeIntegers ∧
    (create_variables_domains.all (fun p =>
      (p.2 == VarDomain.binary) ==
        (["prod_exists", "ccs1_built", "ccs2_built"].contains p.1))) = true := by
  decide

/-- Claim C7, counterexample: a new electric producer node with no attributes
yields an undefined grid-intensity coefficient, not zero: the initializer of
this one family calls dict.get without a default. -/
theorem grid_intensity_missing_attribute_cex :
    grid_intensity [] = none ∧ (none : Option ℚ) ≠ some 0 :=
  ⟨rfl, by simp⟩

/-- Claim C7 as amended: every parameter family of create_params except
grid_intensity is initialized to zero when the backing node or arc lacks the
corresponding attribute; grid_intensity is left undefined in that case. -/
theorem params_missing_attribute_defaults :
    ∀ attrs : AttrBag,
      (getAttr attrs "capital_usdPerUnit" = none → dist_cost_capital attrs = 0) ∧
      (getAttr attrs "fixed_usdPerUnitPerDay" = none → dist_cost_fixed attrs = 0) ∧
      (getAttr attrs "variable_usdPerTon" = none → dist_cost_variable attrs = 0) ∧
      (getAttr attrs "flowLimit_tonsPerDay" = none → dist_flowLimit attrs = 0) ∧
      (getAttr attrs "capital_usdPerTonPerDay" = none → prod_cost_capital attrs = 0) ∧
      (getAttr attrs "fixed_usdPerTon" = none → prod_cost_fixed attrs = 0) ∧
      (getAttr attrs "e_price" = none → prod_e_price attrs = 0) ∧
      (getAttr attrs "ng_price" = none → prod_ng_price attrs = 0) ∧
      (getAttr attrs "variable_usdPerTon" = none → prod_cost_variable attrs = 0) ∧
      (getAttr attrs "co2_emissions_per_h2_tons" = none → co2_emissions_rate attrs = 0) ∧
      (getAttr attrs "utilization" = none → prod_utilization attrs = 0) ∧
      (getAttr attrs "chec_per_ton" = none → chec_per_ton attrs = 0) ∧
      (getAttr attrs "ccs_capture_rate" = none → ccs_capture_rate attrs = 0) ∧
      (getAttr attrs "h2_tax_credit" = none → h2_tax_credit attrs = 0) ∧
      (getAttr attrs "capital_usdPerTonPerDay" = none → conv_cost_capital attrs = 0) ∧
      (getAttr attrs "fixed_usdPerTonPerDay" = none → conv_cost_fixed attrs = 0) ∧
      (getAttr attrs "e_price" = none → conv_e_price attrs = 0) ∧
      (getAttr attrs "variable_usdPerTon" = none → conv_cost_variable attrs = 0) ∧
      (getAttr attrs "utilization" = none → conv_utilization attrs = 0) ∧
      (getAttr attrs "breakevenPrice" = none → cons_price attrs = 0) ∧
      (getAttr attrs "size" = none → cons_size attrs = 0) ∧
      (getAttr attrs "carbonSensitive" = none → cons_carbonSensitive attrs = 0) ∧
      (getAttr attrs "avoided_emissions_tonsCO2_per_H2" = none → avoided_emissions attrs = 0) ∧
      (getAttr attrs "can_ccs1" = none → can_ccs1 attrs = 0) ∧
      (getAttr attrs "can_ccs2" = none → can_ccs2 attrs = 0) ∧
      (getAttr attrs "grid_intensity_tonsCO2_per_h2" = none → grid_intensity attrs = none) := by
  intro attrs
  refine ⟨?_, ?_, ?_, ?_, ?_, ?_, ?_, ?_, ?_, ?_, ?_, ?_, ?_, ?_, ?_, ?_, ?_,
    ?_, ?_, ?_, ?_, ?_, ?_, ?_, ?_, ?_⟩
  all_goals intro h
  all_goals
    simp only [getAttr] at h
  all_goals
    simp [dist_cost_capital, dist_cost_fixed, dist_cost_variable, dist_flowLimit,
      prod_cost_capital, prod_cost_fixed, prod_e_price, prod_ng_price,
      prod_cost_variable, co2_emissions_rate, prod_utilization, chec_per_ton,
      ccs_capture_rate, h2_tax_credit, conv_cost_capital, conv_cost_fixed,
      conv_e_price, conv_cost_variable, conv_utilization, cons_price, cons_size,
      cons_carbonSensitive, avoided_emissions, can_ccs1, can_ccs2,
      grid_intensity, getAttrD, getAttr, h]

/-- Claim C8, counterexample: with the raise flag cleared, reading a missing
input file returns None rather than raising. -/
theorem read_file_missing_returns_none_cex :
    read_file false (fun _ : String => (none : Option Nat)) "hubs" =
        Except.ok none ∧
      (fun _ : String => (none : Option Nat)) "hubs" = none :=
  ⟨rfl, rfl⟩

/-- Claim C8 as amended: reading a missing input file raises exactly when the
raiseFileNotFoundError flag is set, which is its default; with the flag
cleared, the pre- and postprocessing mode, the read returns None instead. -/
theorem read_file_missing_raises_iff_flag :
    ∀ {α : Type} (fs : String → Option α) (fn : String),
      fs fn = none →
      read_file true fs fn =
          Except.error ("The file " ++ fn ++ " was not found.") ∧
        read_file false fs fn = Except.ok none := by
  intro α fs fn h
  constructor <;> simp [read_file, h]

/-- Witness for the amended claim C8 at a filesystem with no files and the
file name hubs. -/
theorem read_file_missing_raises_iff_flag_witness :
    read_file true (fun _ : String => (none : Option Nat)) "hubs" =
        Except.error ("The file " ++ "hubs" ++ " was not found.") ∧
      read_file false (fun _ : String => (none : Option Nat)) "hubs" =
        Except.ok none :=
  read_file_missing_raises_iff_flag (fun _ => none) "hubs" rfl

/-- Claim C9, counterexample: for hub h and a single row of flow one whose
start identifier merely contains h followed by an underscore without beginning
with it, the three decomposed subsets carry total flow one while the rows
whose start or end identifier begins with the hub name carry total flow zero:
the source splits by substring containment, not by an identifier beginning. -/
theorem hub_distribution_substring_cex :
    flowSum (localRows "h" [⟨"x_h_a", "y", 1⟩]) +
        flowSum (outgoingRows "h" [⟨"x_h_a", "y", 1⟩]) +
        flowSum (incomingRows "h" [⟨"x_h_a", "y", 1⟩]) = 1 ∧
      flowSum (hubRelatedRowsSpec "h" [⟨"x_h_a", "y", 1⟩]) = 0 ∧
      (1 : ℚ) ≠ 0 := by
  have h1 : strContains "h_" "x_h_a" = true := rfl
  have h2 : strContains "h_" "y" = false := rfl
  have h3 : strStarts "h_" "x_h_a" = false := rfl
  have h4 : strStarts "h_" "y" = false := rfl
  have h5 : decide ((0 : ℚ) < 1) = true := by norm_num
  refine ⟨?_, ?_, by norm_num⟩
  · simp [localRows, outgoingRows, incomingRows, flowSum, h1, h2, h5,
      List.filter_cons]
  · simp [hubRelatedRowsSpec, flowSum, h3, h4, List.filter_cons]

/-- Claim C9 as amended: with every reported flow positive, as the upstream
tolerance filter guarantees for the global distribution table, the flow summed
over the local, outgoing and incoming subsets equals the flow summed over the
rows whose start or end identifier contains the hub name followed by an
underscore, the selection the source actually makes. -/
theorem hub_distribution_flow_roundtrip :
    ∀ (hub : String) (rows : List DistRow),
      (∀ r ∈ rows, 0 < r.dist_h) →
      flowSum (localRows hub rows) + flowSum (outgoingRows hub rows) +
          flowSum (incomingRows hub rows) =
        flowSum (hubRelatedRows hub rows) := by
  intro hub rows hpos
  induction rows with
  | nil => simp [localRows, outgoingRows, incomingRows, hubRelatedRows, flowSum]
  | cons r rest ih =>
    have hr : 0 < r.dist_h := hpos r (List.mem_cons_self r rest)
    have hrd : decide (0 < r.dist_h) = true := decide_eq_true hr
    have ih2 := ih (fun x hx => hpos x (List.mem_cons_of_mem r hx))
    cases hcs : strContains (hub ++ "_") r.arc_start <;>
      cases hce : strContains (hub ++ "_") r.arc_end <;>
      simp [localRows, outgoingRows, incomingRows, hubRelatedRows, flowSum,
        List.filter_cons, hcs, hce, hrd] at ih2 ⊢ <;>
      linarith [ih2]

/-- Witness for the amended claim C9 at hub h and one local row of flow 2. -/
theorem hub_distribution_flow_roundtrip_witness :
    flowSum (localRows "h" [⟨"h_a", "h_b", 2⟩]) +
        flowSum (outgoingRows "h" [⟨"h_a", "h_b", 2⟩]) +
        flowSum (incomingRows "h" [⟨"h_a", "h_b", 2⟩]) =
      flowSum (hubRelatedRows "h" [⟨"h_a", "h_b", 2⟩]) :=
  hub_distribution_flow_roundtrip "h" [⟨"h_a", "h_b", 2⟩]
    (by
      intro r hr
      simp at hr
      subst hr
      show (0 : ℚ) < 2
      norm_num)

/-- Claim C10: for every inter-hub distance record both high-purity pipeline
arcs carry an existing flag of zero whatever the exist_pipeline flag of the
record, and both low-purity arcs carry exactly the flag of the record. -/
theorem highPurity_pipeline_existing_always_zero :
    ∀ (spec : PipelineSpec) (plen pm : ℚ) (s e : String) (ex : ℚ),
      (∀ a ∈ interHubPipelineArcs spec plen pm s e ex,
        a.cls = "arc_pipelineHighPurity" → a.existing = 0) ∧
      (∀ a ∈ interHubPipelineArcs spec plen pm s e ex,
        a.cls = "arc_pipelineLowPurity" → a.existing = ex) := by
  intro spec plen pm s e ex
  constructor
  all_goals intro a ha
  all_goals rw [interHubPipelineArcs_eq] at ha
  all_goals simp [pipelinePairForPurity] at ha
  all_goals rcases ha with rfl|rfl|rfl|rfl
  all_goals simp
